import Mathlib

/-!
# Shallow embedding of the sigsim simulation runtime

This file embeds, in Lean, the parts of the `sigsim` IoT fleet simulator
that the verified properties talk about:

* `CircuitBreaker` — `app/simulation/connectors/circuit_breaker.py`
* the per-project log ring buffer and subscriber replay —
  `app/simulation/engine.py` (`SimulationProject.notify_observers`,
  `SimulationEngine.stream_logs`)
* `SimulationEngine.start_project` — `app/simulation/engine.py`
* the Kafka message-key selection and the `KafkaConfig` pydantic model —
  `app/simulation/connectors/kafka_connector.py`, `app/models/target.py`
* the HTTP connector send path — `app/simulation/connectors/http_connector.py`
* `DeviceStats` and the device simulator run loop —
  `app/simulation/device_simulator.py`
* the sandboxed Python script payload generator —
  `app/simulation/payload_generators/python_runner.py`

Machine wall-clock time is modelled as an integer parameter passed to the
operations that read `datetime.utcnow()`; fields of the source that only
store wall-clock timestamps for display (`last_message_at`,
`last_success_at`, `last_connection_attempt`) are carried as optional
integers where a claim mentions the surrounding record.
-/

namespace Sigsim

/-! ## Circuit breaker (`circuit_breaker.py`) -/

/-- `CircuitState` from `circuit_breaker.py`: CLOSED / OPEN / HALF_OPEN. -/
inductive CircuitState where
  | closed
  | open_
  | half_open
  deriving DecidableEq, Repr

/-- The mutable fields of `CircuitBreaker` (`circuit_breaker.py` lines 21-33),
with `datetime` replaced by an integer timestamp and the float
`recovery_timeout` by an integer number of seconds. -/
structure CircuitBreaker where
  failure_threshold : Nat
  recovery_timeout : Int
  failure_count : Nat
  last_failure_time : Option Int
  state : CircuitState
  deriving DecidableEq, Repr

/-- A freshly constructed breaker (`CircuitBreaker.__init__`). -/
def CircuitBreaker.init (ft : Nat) (rt : Int) : CircuitBreaker :=
  { failure_threshold := ft
    recovery_timeout := rt
    failure_count := 0
    last_failure_time := none
    state := .closed }

/-- `CircuitBreaker._should_attempt_reset` at wall-clock time `now`:
true when no failure has been recorded, or when at least
`recovery_timeout` seconds have elapsed since the last failure. -/
def CircuitBreaker.should_attempt_reset (cb : CircuitBreaker) (now : Int) : Bool :=
  match cb.last_failure_time with
  | none => true
  | some t => decide (cb.recovery_timeout ≤ now - t)

/-- `CircuitBreaker._on_success`: reset the count and close the circuit. -/
def CircuitBreaker.on_success (cb : CircuitBreaker) : CircuitBreaker :=
  { cb with failure_count := 0, state := .closed }

/-- `CircuitBreaker._on_failure` at time `now`: bump the count, stamp the
failure, and open the circuit once the count reaches the threshold. -/
def CircuitBreaker.on_failure (cb : CircuitBreaker) (now : Int) : CircuitBreaker :=
  let cb := { cb with failure_count := cb.failure_count + 1,
                      last_failure_time := some now }
  if cb.failure_threshold ≤ cb.failure_count then { cb with state := .open_ }
  else cb

/-- The first phase of `CircuitBreaker.call` (lines 50-54): when OPEN,
move to HALF_OPEN if the recovery timeout has elapsed; otherwise leave the
breaker untouched (the call will then raise without invoking the wrapped
function). -/
def CircuitBreaker.resetCheck (cb : CircuitBreaker) (now : Int) : CircuitBreaker :=
  if cb.state = .open_ ∧ cb.should_attempt_reset now then
    { cb with state := .half_open }
  else cb

/-- Outcome of one `CircuitBreaker.call`: the wrapped function ran and
succeeded, ran and raised, or the call was rejected (the breaker raised
"Circuit breaker is OPEN" without invoking the function). -/
inductive CallResult where
  | succeeded
  | failed
  | rejected
  deriving DecidableEq, Repr

/-- `CircuitBreaker.call` (lines 35-63) at wall-clock time `now`.
`outcome` is the behaviour of the wrapped function if it is invoked:
`true` = it returns normally, `false` = it raises an expected exception.
Returns the new breaker state together with what happened. -/
def CircuitBreaker.call (cb : CircuitBreaker) (now : Int) (outcome : Bool) :
    CircuitBreaker × CallResult :=
  let cb2 := cb.resetCheck now
  if cb2.state = .open_ then (cb2, .rejected)
  else if outcome then (cb2.on_success, .succeeded)
  else (cb2.on_failure now, .failed)

/-- A run of consecutive failing calls through the breaker, one at each
wall-clock time in `ts`. -/
def applyFailures (cb : CircuitBreaker) (ts : List Int) : CircuitBreaker :=
  ts.foldl (fun c t => (c.call t false).1) cb

/-! ## Log ring buffer and subscriber replay (`engine.py`) -/

/-- The buffer update performed by `SimulationProject.notify_observers`
(`engine.py` lines 62-67): insert the new entry at the front and truncate
to `cap` (`max_log_buffer_size`, default 100) when the length exceeds it.
The buffer is kept newest-first.  The fan-out to websocket observers that
follows in the source does not touch the buffer and is not modelled. -/
def notify_observers_buffer (buf : List α) (cap : Nat) (e : α) : List α :=
  let buf2 := e :: buf
  if cap < buf2.length then buf2.take cap else buf2

/-- The buffer contents after delivering `entries` (oldest first) to
`notify_observers` starting from an empty buffer. -/
def bufferAfter (entries : List α) (cap : Nat) : List α :=
  entries.foldl (fun b e => notify_observers_buffer b cap e) []

/-- The replay sent to a newly connected log subscriber by
`SimulationEngine.stream_logs` (`engine.py` line 265):
`reversed(sim_project.log_buffer[-20:])`.  A Python slice `[-20:]` is the
last 20 elements of the list, i.e. `drop (length - 20)`. -/
def stream_logs_replay (buf : List α) : List α :=
  (buf.drop (buf.length - 20)).reverse

/-! ## `SimulationEngine.start_project` (`engine.py` lines 100-181)

The loop over the project devices builds at most one simulator per
device.  For the control flow of `start_project` only three things can
happen to a device: it is skipped by one of the `continue` branches
(missing payload, payload not found, invalid or unknown payload type,
missing or unknown target), it yields a simulator, or processing it
raises an exception that is not caught inside the loop (e.g.
`ConnectorFactory.create_connector` raising `ValueError` on an invalid
target config), in which case the outer `except` makes `start_project`
return `False` without touching the engine map. -/

/-- What processing one device inside the `start_project` loop does. -/
inductive DeviceBuild where
  | skip
  | builds
  | raises
  deriving DecidableEq, Repr

/-- The device loop of `start_project`: `none` when some device raises
(the exception aborts the loop and is caught by the outer handler),
otherwise the number of simulators constructed. -/
def processDevices : List DeviceBuild → Option Nat
  | [] => some 0
  | .skip :: ds => processDevices ds
  | .builds :: ds => (processDevices ds).map (· + 1)
  | .raises :: _ => none

/-- The engine state that `start_project` consults and mutates: the map
`running_projects`, reduced to project-id paired with the number of
simulators held by the stored `SimulationProject`. -/
structure Engine where
  running_projects : List (String × Nat)
  deriving DecidableEq, Repr

/-- `SimulationEngine.start_project`: return `False` when the id is
already in the map; otherwise run the device loop, and unless it raised,
insert the project (with however many simulators were built — possibly
zero) and return `True`. -/
def start_project (eng : Engine) (pid : String) (devices : List DeviceBuild) :
    Engine × Bool :=
  if (eng.running_projects.lookup pid).isSome then (eng, false)
  else
    match processDevices devices with
    | none => (eng, false)
    | some n => ({ running_projects := (pid, n) :: eng.running_projects }, true)

/-! ## Kafka connector (`kafka_connector.py`, `models/target.py`) -/

/-- Python truthiness of an optional string: `None` and `""` are falsy. -/
def optStrTruthy : Option String → Bool
  | none => false
  | some s => !(s = "")

/-- A JSON-style payload value as the Kafka connector sees it. -/
inductive JValue where
  | str (s : String)
  | int (n : Int)
  | bool (b : Bool)
  | null
  deriving DecidableEq, Repr

/-- Python `str()` of the payload values above (`str(key_value)` in
`_get_message_key`). -/
def JValue.pyStr : JValue → String
  | .str s => s
  | .int n => toString n
  | .bool b => if b then "True" else "False"
  | .null => "None"

/-- The key-related configuration attributes the Kafka connector reads
(`self.config.key_static`, `self.config.key_field`).  This is the shape
the connector and the repository tests assume the config object has. -/
structure KafkaKeyCfg where
  key_static : Option String
  key_field : Option String
  deriving DecidableEq, Repr

/-- `KafkaConnector._get_message_key` (lines 75-90): the static key when
it is truthy, else the `str()` of the payload field named by `key_field`
when that field is present and not `None`, else no key.  The payload is
the finite map from field names to values. -/
def get_message_key (cfg : KafkaKeyCfg) (payload : List (String × JValue)) :
    Option String :=
  if optStrTruthy cfg.key_static then cfg.key_static
  else if optStrTruthy cfg.key_field then
    match cfg.key_field with
    | some f =>
      match payload.lookup f with
      | some v => if v = .null then none else some v.pyStr
      | none => none
    | none => none
  else none

/-- The fields actually declared by the `KafkaConfig` pydantic model
(`models/target.py` lines 169-176).  It has no `partition`, `key_field`
or `key_static` field and no validator beyond the two required fields. -/
structure KafkaConfig where
  bootstrap_servers : String
  topic : String
  security_protocol : String
  sasl_mechanism : Option String
  sasl_username : Option String
  sasl_password : Option String
  deriving DecidableEq, Repr

/-- The keyword arguments a caller may pass when constructing a
`KafkaConfig` (the ones exercised by the repository's own tests). -/
structure KafkaConfigInput where
  bootstrap_servers : Option String
  topic : Option String
  security_protocol : Option String
  key_field : Option String
  key_static : Option String
  partition : Option Int
  deriving DecidableEq, Repr

/-- Construction of `KafkaConfig` (`models/target.py` lines 169-176).
Pydantic v1 with the default model config raises a validation error iff a
required field (`bootstrap_servers`, `topic`) is missing, and silently
ignores keyword arguments that are not declared fields — so `key_field`,
`key_static` and `partition` are dropped and no mutual-exclusion check
runs. -/
def KafkaConfig.construct (i : KafkaConfigInput) : Except String KafkaConfig :=
  match i.bootstrap_servers, i.topic with
  | some b, some t =>
    .ok { bootstrap_servers := b
          topic := t
          security_protocol := i.security_protocol.getD "PLAINTEXT"
          sasl_mechanism := none
          sasl_username := none
          sasl_password := none }
  | _, _ => .error "field required"

/-! ## HTTP connector (`http_connector.py`) -/

/-- The configuration attribute `HTTPConnector.send` dispatches on.
URL, headers and timeout do not influence any modelled behaviour. -/
structure HTTPCfg where
  method : String
  deriving DecidableEq, Repr

/-- The connector state: whether `self.session` is a live
`aiohttp.ClientSession` (`some`/`none` in the source is `session`/`None`). -/
structure HTTPState where
  session : Bool
  deriving DecidableEq, Repr

/-- What the environment does for one HTTP request attempt: the server
answers with a status code, the client library raises
`aiohttp.ClientError`, or some other exception is raised. -/
inductive HTTPOutcome where
  | status (code : Nat)
  | clientError
  | otherError
  deriving DecidableEq, Repr

/-- The methods for which `send` has a request branch.  `DELETE` is
accepted by the config validator but has no branch in `send`. -/
def supportedMethods : List String := ["GET", "POST", "PUT", "PATCH"]

/-- Python `str.upper()` on the (ASCII) HTTP method names, mapped
character by character. -/
def pyUpper (s : String) : String := ⟨s.data.map Char.toUpper⟩

/-- `HTTPConnector.send` (lines 31-81).  `connectOk` is the result
`connect` would produce if `send` has to establish the session itself
(`connect` builds a `ClientSession`; on an exception it returns `False`
leaving `session` as `None`).  `outcome` is the environment's behaviour
for the request, used only when a request is actually issued.

Result: (new connector state, returned boolean, whether an HTTP request
was issued).  Per the source: with no session, try `connect`, returning
`False` on failure; an unsupported method returns `False` without a
request; a status response returns `status < 400` leaving the session
alone; `aiohttp.ClientError` closes the session (`disconnect`) and
returns `False`; any other exception returns `False` leaving the session
alone. -/
def HTTPConnector.send (cfg : HTTPCfg) (st : HTTPState) (connectOk : Bool)
    (outcome : HTTPOutcome) : HTTPState × Bool × Bool :=
  let st2 : HTTPState := if st.session then st else { session := connectOk }
  if !st2.session then (st2, false, false)
  else if !(supportedMethods.contains (pyUpper cfg.method)) then (st2, false, false)
  else
    match outcome with
    | .status c => (st2, decide (c < 400), true)
    | .clientError => ({ session := false }, false, true)
    | .otherError => (st2, false, true)

/-! ## Device statistics and the simulator run loop (`device_simulator.py`) -/

/-- `DeviceStats` (`device_simulator.py` lines 14-48).  The wall-clock
fields are carried as optional integer timestamps; operations that stamp
`datetime.utcnow()` take the time as a parameter. -/
structure DeviceStats where
  messages_sent : Nat
  errors : Nat
  connection_errors : Nat
  send_errors : Nat
  last_message_at : Option Int
  last_error : Option String
  last_success_at : Option Int
  consecutive_errors : Nat
  total_retries : Nat
  deriving DecidableEq, Repr

/-- `DeviceStats.__init__`: all counters zero, no timestamps. -/
def DeviceStats.init : DeviceStats :=
  { messages_sent := 0
    errors := 0
    connection_errors := 0
    send_errors := 0
    last_message_at := none
    last_error := none
    last_success_at := none
    consecutive_errors := 0
    total_retries := 0 }

/-- `DeviceStats.increment_messages` at time `now`: one more message,
stamp the success, reset the consecutive-error run. -/
def DeviceStats.increment_messages (s : DeviceStats) (now : Int) : DeviceStats :=
  { s with messages_sent := s.messages_sent + 1
           last_message_at := some now
           last_success_at := some now
           consecutive_errors := 0 }

/-- `DeviceStats.record_error`: bump `errors` and `consecutive_errors`,
remember the message, and bump the per-kind counter for the recognized
`error_type` values `"connection"` and `"send"` (any other type touches
neither per-kind counter). -/
def DeviceStats.record_error (s : DeviceStats) (error : String)
    (error_type : String) : DeviceStats :=
  let s := { s with errors := s.errors + 1
                    consecutive_errors := s.consecutive_errors + 1
                    last_error := some error }
  if error_type = "connection" then
    { s with connection_errors := s.connection_errors + 1 }
  else if error_type = "send" then
    { s with send_errors := s.send_errors + 1 }
  else s

/-- `DeviceStats.record_retry`. -/
def DeviceStats.record_retry (s : DeviceStats) : DeviceStats :=
  { s with total_retries := s.total_retries + 1 }

/-- The `DeviceStats` mutations a simulator can perform, for reasoning
about every reachable statistics state. -/
inductive StatsOp where
  | increment (now : Int)
  | recordError (error : String) (error_type : String)
  | recordRetry
  deriving DecidableEq, Repr

/-- Apply one `DeviceStats` mutation. -/
def DeviceStats.apply (s : DeviceStats) : StatsOp → DeviceStats
  | .increment now => s.increment_messages now
  | .recordError e t => s.record_error e t
  | .recordRetry => s.record_retry

/-- Apply a sequence of mutations. -/
def DeviceStats.applyOps (s : DeviceStats) (ops : List StatsOp) : DeviceStats :=
  ops.foldl DeviceStats.apply s

/-- One record in the stream of log events a simulator emits: the
`event_type` of the `SimulationLogEntry` together with the snapshot of
the owning simulator's stats at the moment `_log_event` runs. -/
structure TraceEntry where
  event_type : String
  stats : DeviceStats
  deriving DecidableEq, Repr

/-- The per-tick bookkeeping of `DeviceSimulator.run` (lines 114-125)
after `_send_with_retry` came back: on success `increment_messages` then
log `message_sent`; on failure `record_error(..., "send")` then log
`error`.  `now` is the wall-clock time of the tick. -/
def DeviceSimulator.tickRecord (s : DeviceStats) (now : Int) (success : Bool) :
    DeviceStats × TraceEntry :=
  if success then
    let s2 := s.increment_messages now
    (s2, { event_type := "message_sent", stats := s2 })
  else
    let s2 := s.record_error "Failed to send message after retries" "send"
    (s2, { event_type := "error", stats := s2 })

/-- A run of ticks: fold `tickRecord` over the (time, send-result) list,
collecting the emitted log records in order. -/
def DeviceSimulator.runTicks (s : DeviceStats) :
    List (Int × Bool) → DeviceStats × List TraceEntry
  | [] => (s, [])
  | (now, success) :: rest =>
    let (s2, e) := DeviceSimulator.tickRecord s now success
    let (s3, es) := DeviceSimulator.runTicks s2 rest
    (s3, e :: es)

/-! ## Sandboxed Python script generator (`python_runner.py`)

The scripts the generator accepts are Python programs; we embed the AST
fragment that `CodeValidator` inspects and that the example scripts use:
names, constants, calls, attribute access, dictionary displays as
expressions; `import`, `from ... import`, assignment to a name, and bare
expression statements.  `SafePythonExecutor.execute` first builds
`safe_globals`, whose restricted builtins mapping is the dict
comprehension `{name: getattr(__builtins__, name) for name in
ALLOWED_BUILTINS}` — and in `python_runner`, an imported module,
`__builtins__` is the builtins module's plain dict, so that `getattr`
raises `AttributeError`; this happens before the `try` of line 75, so
the exception propagates out of `execute`.  The model makes the
`__builtins__` reference explicit (`BuiltinsRef`) so this failure is a
property of the embedding, with the `__main__` counterfactual (where
`__builtins__` is the module object and the mapping builds) kept as the
other branch.  Inside an `exec` that is reached, the results of calling
library functions and of attribute projection are kept symbolic
(`PyValue.app`, `PyValue.attr`) since the source delegates them to the
CPython runtime; the modelled failures are the `NameError` raised when a
name resolves in neither scope — what the restricted `__builtins__`
produces for a non-allow-listed function — and the `ImportError` raised
by any `import` statement, since the restricted builtins mapping
contains no `__import__`. -/

/-- Runtime values of the modelled Python fragment. -/
inductive PyValue where
  | int (n : Int)
  | str (s : String)
  | bool (b : Bool)
  | dict (entries : List (String × PyValue))
  | module (name : String)
  | builtin (name : String)
  | app (f : PyValue) (args : List PyValue)
  | attr (v : PyValue) (a : String)

/-- Expressions of the modelled Python fragment. -/
inductive PyExpr where
  | name (id : String)
  | const (v : PyValue)
  | call (f : PyExpr) (args : List PyExpr)
  | attribute (obj : PyExpr) (a : String)
  | dictDisplay (entries : List (String × PyExpr))

/-- Statements of the modelled Python fragment.  Assignment targets are
plain names (the example scripts assign only to names such as `result`). -/
inductive PyStmt where
  | importStmt (names : List String)
  | importFrom (module : String) (names : List String)
  | assign (target : String) (value : PyExpr)
  | exprStmt (e : PyExpr)

/-- `SafePythonExecutor.ALLOWED_BUILTINS`. -/
def ALLOWED_BUILTINS : List String :=
  ["abs", "all", "any", "bool", "dict", "enumerate", "filter", "float",
   "int", "len", "list", "map", "max", "min", "range", "round", "str",
   "sum", "tuple", "zip"]

/-- `SafePythonExecutor.ALLOWED_MODULES`. -/
def ALLOWED_MODULES : List String :=
  ["random", "datetime", "uuid", "math", "json"]

/-- The denylist of `CodeValidator.visit_Attribute`. -/
def dangerous_attrs : List String :=
  ["__import__", "__builtins__", "exec", "eval", "open", "file"]

mutual

/-- `CodeValidator` on expressions.  `visit_Attribute` rejects exactly the
attributes on `dangerous_attrs`; `visit_Call` inspects the callee but
rejects nothing ("Will be checked at runtime"); `generic_visit` recurses
into every child node. -/
def exprOk : PyExpr → Bool
  | .name _ => true
  | .const _ => true
  | .call f args => exprOk f && exprListOk args
  | .attribute obj a => !(dangerous_attrs.contains a) && exprOk obj
  | .dictDisplay entries => exprEntriesOk entries

/-- `generic_visit` over a list of child expressions. -/
def exprListOk : List PyExpr → Bool
  | [] => true
  | e :: es => exprOk e && exprListOk es

/-- `generic_visit` over the value expressions of a dictionary display. -/
def exprEntriesOk : List (String × PyExpr) → Bool
  | [] => true
  | (_, e) :: es => exprOk e && exprEntriesOk es

end

/-- `CodeValidator` on statements: `visit_Import` requires every imported
module on the allow-list; `visit_ImportFrom` requires the module on the
allow-list; other statements are only traversed. -/
def stmtOk : PyStmt → Bool
  | .importStmt names => names.all (fun n => ALLOWED_MODULES.contains n)
  | .importFrom m _ => ALLOWED_MODULES.contains m
  | .assign _ e => exprOk e
  | .exprStmt e => exprOk e

/-- `SafePythonExecutor.validate_code`: parse (our programs are already
ASTs) and walk the tree with `CodeValidator`; true iff no node raised. -/
def validate_code (prog : List PyStmt) : Bool := prog.all stmtOk

/-- `PythonCodeGenerator.__init__` succeeds iff `compile_code` returns
true, which for a syntactically well-formed program is exactly
`validate_code` (the subsequent `compile` of an already-parsed program
cannot raise `SyntaxError`).  `false` means the constructor raised
`ValueError("Failed to compile Python code")`. -/
def PythonCodeGenerator.constructs (prog : List PyStmt) : Bool :=
  validate_code prog

/-- An execution environment: an association list of bindings, most
recent first. -/
abbrev PyEnv := List (String × PyValue)

/-- Set (or overwrite) a binding. -/
def PyEnv.set (env : PyEnv) (x : String) (v : PyValue) : PyEnv :=
  (x, v) :: env.filter (fun p => !(p.1 = x))

/-- What the global name `__builtins__` denotes where the body of
`python_runner` runs: CPython binds it to the `builtins` module object
in `__main__`, and to that module's plain dict in every other module.
The simulation engine imports `python_runner`, so the program only ever
exercises the dict case. -/
inductive BuiltinsRef where
  | moduleObject
  | moduleDict
  deriving DecidableEq, Repr

/-- `getattr(__builtins__, name)` for an allow-listed builtin `name`
(line 62): on the builtins module object the attribute exists and is
that builtin; on the dict, `getattr` raises `AttributeError` — dict
entries are not attributes. -/
def getattr_builtins : BuiltinsRef → String → Except String PyValue
  | .moduleObject, name => .ok (.builtin name)
  | .moduleDict, name =>
    .error ("AttributeError: dict object has no attribute " ++ name)

/-- The dict comprehension of line 62 building the restricted
`__builtins__` mapping: one `getattr` per allow-listed name, aborted by
the first exception. -/
def build_restricted_builtins (ref : BuiltinsRef) : Except String PyEnv :=
  ALLOWED_BUILTINS.mapM (fun name => do
    let v ← getattr_builtins ref name
    pure (name, v))

/-- `safe_globals` as name resolution inside the `exec` sees it, given a
successfully built restricted builtins mapping `bins`: the five modules
at top level (lines 63-67), with the `__builtins__` mapping reachable
behind them. -/
def safe_globals_env (bins : PyEnv) : PyEnv :=
  ALLOWED_MODULES.map (fun m => (m, PyValue.module m)) ++ bins

/-- `safe_locals` of `SafePythonExecutor.execute`: the read-only device
metadata and the output binding `result`, initially `{}`. -/
def initial_locals (meta : PyValue) : PyEnv :=
  [("device_metadata", meta), ("result", PyValue.dict [])]

mutual

/-- Expression evaluation under `exec(compiled, safe_globals, safe_locals)`:
names resolve in the locals, then the globals `g` (the top-level module
bindings, then the restricted `__builtins__` mapping); an unresolved
name raises `NameError`.  Calls and attribute projections are
symbolic. -/
def evalExpr (g locals : PyEnv) : PyExpr → Except String PyValue
  | .name id =>
    match locals.lookup id with
    | some v => .ok v
    | none =>
      match g.lookup id with
      | some v => .ok v
      | none => .error ("name " ++ id ++ " is not defined")
  | .const v => .ok v
  | .call f args => do
    let fv ← evalExpr g locals f
    let avs ← evalExprList g locals args
    .ok (.app fv avs)
  | .attribute obj a => do
    let v ← evalExpr g locals obj
    .ok (.attr v a)
  | .dictDisplay entries => do
    let evs ← evalEntries g locals entries
    .ok (.dict evs)

/-- Left-to-right evaluation of the arguments of a call. -/
def evalExprList (g locals : PyEnv) : List PyExpr → Except String (List PyValue)
  | [] => .ok []
  | e :: es => do
    let v ← evalExpr g locals e
    let vs ← evalExprList g locals es
    .ok (v :: vs)

/-- Left-to-right evaluation of the entries of a dictionary display. -/
def evalEntries (g locals : PyEnv) :
    List (String × PyExpr) → Except String (List (String × PyValue))
  | [] => .ok []
  | (k, e) :: es => do
    let v ← evalExpr g locals e
    let vs ← evalEntries g locals es
    .ok ((k, v) :: vs)

end

/-- Execute one statement under globals `g`.  Both import forms raise:
CPython compiles them to a lookup of `__import__` in the builtins of the
executing frame, and the restricted `__builtins__` mapping of
`safe_globals` contains no `__import__` — so even an allow-listed
module, as in the repository script examples, cannot be imported inside
the sandbox.  Assignment evaluates and binds; an expression statement
evaluates for effect. -/
def execStmt (g locals : PyEnv) : PyStmt → Except String PyEnv
  | .importStmt _ => .error "ImportError: __import__ not found"
  | .importFrom _ _ => .error "ImportError: __import__ not found"
  | .assign x e => do
    let v ← evalExpr g locals e
    .ok (locals.set x v)
  | .exprStmt e => do
    let _ ← evalExpr g locals e
    .ok locals

/-- Execute a statement sequence under globals `g`; the first exception
aborts the run. -/
def execStmts (g locals : PyEnv) : List PyStmt → Except String PyEnv
  | [] => .ok locals
  | s :: rest => do
    let env ← execStmt g locals s
    execStmts g env rest

/-- `SafePythonExecutor.execute` (lines 55-80).  The `safe_globals` dict
display of lines 60-68 is evaluated before the `try` of line 75, so an
exception raised while building the restricted builtins mapping
propagates out of `execute` (the `.error` case) — no payload of any kind
is returned.  Only when that mapping builds does the `try` run the
compiled program: on success it returns `safe_locals.get('result', {})`,
and an exception raised by `exec` is caught and turned into the
`{"error": str(e)}` payload. -/
def SafePythonExecutor.execute (ref : BuiltinsRef) (prog : List PyStmt)
    (meta : PyValue) : Except String PyValue :=
  match build_restricted_builtins ref with
  | .error e => .error e
  | .ok bins =>
    .ok (match execStmts (safe_globals_env bins) (initial_locals meta) prog with
         | .ok env => (env.lookup "result").getD (PyValue.dict [])
         | .error e => PyValue.dict [("error", PyValue.str e)])

/-- The `__builtins__` reference in force when the running system uses
the generator: the engine imports `python_runner`, so its module body
sees the builtins dict, never the module object. -/
def python_runner_builtins : BuiltinsRef := .moduleDict

/-- `PythonCodeGenerator.generate`: one execution of the compiled script,
as the running program performs it. -/
def PythonCodeGenerator.generate (prog : List PyStmt) (meta : PyValue) :
    Except String PyValue :=
  SafePythonExecutor.execute python_runner_builtins prog meta

/-- The Python script `result = open("/etc/passwd")`: it names the
builtin `open`, which is on no allow-list. -/
def openCallScript : List PyStmt :=
  [PyStmt.assign "result"
    (PyExpr.call (PyExpr.name "open") [PyExpr.const (PyValue.str "/etc/passwd")])]

/-! ## Lemmas about the circuit breaker -/

theorem applyFailures_nil (cb : CircuitBreaker) : applyFailures cb [] = cb := rfl

theorem applyFailures_cons (cb : CircuitBreaker) (t : Int) (ts : List Int) :
    applyFailures cb (t :: ts) = applyFailures ((cb.call t false).1) ts := rfl

/-- One failing call through a CLOSED breaker: the function is invoked and
`_on_failure` runs. -/
theorem call_closed_fail (cb : CircuitBreaker) (t : Int) (h : cb.state = .closed) :
    cb.call t false =
      (if cb.failure_threshold ≤ cb.failure_count + 1 then
        { cb with failure_count := cb.failure_count + 1,
                  last_failure_time := some t, state := .open_ }
       else
        { cb with failure_count := cb.failure_count + 1,
                  last_failure_time := some t },
       .failed) := by
  simp only [CircuitBreaker.call, CircuitBreaker.resetCheck, CircuitBreaker.on_failure, h]
  split_ifs with h1 h2 h3 <;> simp_all

/-- Running strictly fewer failing calls than the threshold through a
CLOSED breaker leaves it CLOSED and counts every failure. -/
theorem applyFailures_stays_closed (ts : List Int) : ∀ cb : CircuitBreaker,
    cb.state = .closed →
    cb.failure_count + ts.length < cb.failure_threshold →
    (applyFailures cb ts).state = .closed ∧
    (applyFailures cb ts).failure_count = cb.failure_count + ts.length := by
  induction ts with
  | nil =>
    intro cb h _
    simpa [applyFailures_nil] using h
  | cons t ts ih =>
    intro cb h hlt
    have hno : ¬ cb.failure_threshold ≤ cb.failure_count + 1 := by
      simp only [List.length_cons] at hlt; omega
    rw [applyFailures_cons, call_closed_fail cb t h, if_neg hno]
    have hrec := ih { cb with failure_count := cb.failure_count + 1,
                              last_failure_time := some t }
      (by simp [h]) (by simp only [List.length_cons] at hlt; simp; omega)
    refine ⟨hrec.1, ?_⟩
    rw [hrec.2]
    simp; omega

/-- Running exactly as many consecutive failing calls as the threshold
through a CLOSED breaker opens it. -/
theorem applyFailures_opens (ts : List Int) : ∀ cb : CircuitBreaker,
    cb.state = .closed → ts ≠ [] →
    cb.failure_count + ts.length = cb.failure_threshold →
    (applyFailures cb ts).state = .open_ := by
  induction ts with
  | nil => intro cb _ hne _; exact absurd rfl hne
  | cons t ts ih =>
    intro cb h _ heq
    by_cases hts : ts = []
    · subst hts
      have hyes : cb.failure_threshold ≤ cb.failure_count + 1 := by
        simp only [List.length_cons, List.length_nil] at heq; omega
      rw [applyFailures_cons, call_closed_fail cb t h, if_pos hyes, applyFailures_nil]
    · have hlen : 1 ≤ ts.length := by
        cases ts with
        | nil => exact absurd rfl hts
        | cons _ _ => simp
      have hno : ¬ cb.failure_threshold ≤ cb.failure_count + 1 := by
        simp only [List.length_cons] at heq; omega
      rw [applyFailures_cons, call_closed_fail cb t h, if_neg hno]
      exact ih _ (by simp [h]) hts
        (by simp only [List.length_cons] at heq; simp; omega)

/-- C2: starting from a fresh CLOSED breaker, fewer than
`failure_threshold` consecutive failures leave the breaker CLOSED with
the failures counted, and exactly `failure_threshold` consecutive
failures leave it OPEN; while OPEN with less than `recovery_timeout`
elapsed since the last failure, `call` raises without invoking the
wrapped function and changes nothing; once `recovery_timeout` has
elapsed, the next call runs in HALF_OPEN (the wrapped function is
invoked); and any single invoked success leaves the breaker CLOSED with
`failure_count = 0`. -/
theorem C2_circuit_breaker (ft : Nat) (rt : Int) (hft : 1 ≤ ft) :
    (∀ ts : List Int, ts.length < ft →
      (applyFailures (CircuitBreaker.init ft rt) ts).state = .closed ∧
      (applyFailures (CircuitBreaker.init ft rt) ts).failure_count = ts.length) ∧
    (∀ ts : List Int, ts.length = ft →
      (applyFailures (CircuitBreaker.init ft rt) ts).state = .open_) ∧
    (∀ (cb : CircuitBreaker) (t now : Int) (outcome : Bool),
      cb.state = .open_ → cb.last_failure_time = some t →
      now - t < cb.recovery_timeout →
      cb.call now outcome = (cb, .rejected)) ∧
    (∀ (cb : CircuitBreaker) (t now : Int) (outcome : Bool),
      cb.state = .open_ → cb.last_failure_time = some t →
      cb.recovery_timeout ≤ now - t →
      (cb.resetCheck now).state = .half_open ∧
      (cb.call now outcome).2
        = (if outcome then CallResult.succeeded else CallResult.failed)) ∧
    (∀ (cb : CircuitBreaker) (now : Int),
      (cb.call now true).2 ≠ .rejected →
      (cb.call now true).1.state = .closed ∧
      (cb.call now true).1.failure_count = 0) := by
  refine ⟨?_, ?_, ?_, ?_, ?_⟩
  · intro ts hlt
    have := applyFailures_stays_closed ts (CircuitBreaker.init ft rt)
      rfl (by simpa [CircuitBreaker.init] using hlt)
    simpa [CircuitBreaker.init] using this
  · intro ts hlen
    apply applyFailures_opens ts (CircuitBreaker.init ft rt) rfl
    · intro hnil
      rw [hnil] at hlen
      simp at hlen
      omega
    · simpa [CircuitBreaker.init] using hlen
  · intro cb t now outcome h1 h2 h3
    have hs : cb.should_attempt_reset now = false := by
      simp only [CircuitBreaker.should_attempt_reset, h2, decide_eq_false_iff_not]
      omega
    simp [CircuitBreaker.call, CircuitBreaker.resetCheck, h1, hs]
  · intro cb t now outcome h1 h2 h3
    have hs : cb.should_attempt_reset now = true := by
      simp only [CircuitBreaker.should_attempt_reset, h2, decide_eq_true_eq]
      omega
    constructor
    · simp [CircuitBreaker.resetCheck, h1, hs]
    · cases outcome <;>
        simp [CircuitBreaker.call, CircuitBreaker.resetCheck, h1, hs]
  · intro cb now h
    by_cases hopen : (cb.resetCheck now).state = .open_
    · exact absurd (by simp [CircuitBreaker.call, hopen]) h
    · simp [CircuitBreaker.call, hopen, CircuitBreaker.on_success]

/-- Witness for C2 at threshold 2, recovery timeout 60: two failures (at
times 0 and 1) open the breaker, and a call at time 30 (29 seconds after
the last failure) is rejected with the breaker unchanged. -/
theorem C2_witness :
    (applyFailures (CircuitBreaker.init 2 60) [0, 1]).state = .open_ ∧
    (applyFailures (CircuitBreaker.init 2 60) [0, 1]).call 30 true
      = (applyFailures (CircuitBreaker.init 2 60) [0, 1], .rejected) :=
  ⟨(C2_circuit_breaker 2 60 (by decide)).2.1 [0, 1] (by decide),
   (C2_circuit_breaker 2 60 (by decide)).2.2.1
     (applyFailures (CircuitBreaker.init 2 60) [0, 1]) 1 30 true
     (by decide) (by decide) (by decide)⟩

/-! ## Lemmas about the log ring buffer -/

theorem notify_observers_buffer_eq (b : List α) (cap : Nat) (e : α) :
    notify_observers_buffer b cap e = (e :: b).take cap := by
  show (if cap < (e :: b).length then (e :: b).take cap else e :: b) = (e :: b).take cap
  split
  · rfl
  · next h => exact (List.take_of_length_le (by omega)).symm

theorem take_append_take (x y : List α) (n : Nat) :
    (x ++ y.take n).take n = (x ++ y).take n := by
  rw [List.take_append_eq_append_take, List.take_append_eq_append_take,
    List.take_take, Nat.min_eq_left (Nat.sub_le n x.length)]

/-- Folding `notify_observers` over a delivery sequence, starting from
any buffer already within capacity, keeps exactly the `cap` most recent
entries, newest first. -/
theorem bufferAfterFrom (cap : Nat) : ∀ (es b : List α), b.length ≤ cap →
    es.foldl (fun acc e => notify_observers_buffer acc cap e) b
      = (es.reverse ++ b).take cap := by
  intro es
  induction es with
  | nil =>
    intro b hb
    simpa using (List.take_of_length_le hb).symm
  | cons e es ih =>
    intro b hb
    rw [List.foldl_cons, notify_observers_buffer_eq,
      ih _ (by rw [List.length_take]; omega), take_append_take]
    simp

/-- C8: delivering more entries than the capacity leaves the ring buffer
holding exactly the `cap` most recent entries, newest first, and along
the whole delivery the buffer never exceeds the capacity. -/
theorem C8_ring_buffer (α : Type) (cap : Nat) (entries : List α)
    (hn : cap < entries.length) :
    bufferAfter entries cap = entries.reverse.take cap ∧
    (bufferAfter entries cap).length = cap ∧
    (∀ n : Nat, (bufferAfter (entries.take n) cap).length ≤ cap) := by
  have h1 : bufferAfter entries cap = entries.reverse.take cap := by
    simpa using bufferAfterFrom cap entries [] (by simp)
  refine ⟨h1, ?_, ?_⟩
  · rw [h1, List.length_take, List.length_reverse]
    omega
  · intro n
    have h2 := bufferAfterFrom cap (entries.take n) [] (by simp)
    rw [show bufferAfter (entries.take n) cap
        = (entries.take n).foldl (fun acc e => notify_observers_buffer acc cap e) []
      from rfl, h2, List.length_take]
    omega

/-- Witness for C8: four entries through a buffer of capacity 3 leave the
three most recent, newest first, and the buffer length never passed 3. -/
theorem C8_witness :
    bufferAfter [1, 2, 3, 4] 3 = [4, 3, 2] ∧
    (bufferAfter [1, 2, 3, 4] 3).length = 3 ∧
    (∀ n : Nat, (bufferAfter ([1, 2, 3, 4].take n) 3).length ≤ 3) :=
  C8_ring_buffer Nat 3 [1, 2, 3, 4] (by decide)

/-! ## Lemmas about device statistics -/

theorem DeviceStats.applyOps_nil (s : DeviceStats) : s.applyOps [] = s := rfl

theorem DeviceStats.applyOps_cons (s : DeviceStats) (op : StatsOp) (ops : List StatsOp) :
    s.applyOps (op :: ops) = (s.apply op).applyOps ops := rfl

/-- Each single statistics mutation preserves the partition bound: the
two classified error counters together never pass the total. -/
theorem stats_apply_invariant (s : DeviceStats) (op : StatsOp)
    (h : s.connection_errors + s.send_errors ≤ s.errors) :
    (s.apply op).connection_errors + (s.apply op).send_errors ≤ (s.apply op).errors := by
  cases op with
  | increment now =>
    simpa [DeviceStats.apply, DeviceStats.increment_messages] using h
  | recordError e t =>
    simp only [DeviceStats.apply, DeviceStats.record_error]
    split_ifs <;> simp <;> omega
  | recordRetry =>
    simpa [DeviceStats.apply, DeviceStats.record_retry] using h

theorem stats_applyOps_invariant : ∀ (ops : List StatsOp) (s : DeviceStats),
    s.connection_errors + s.send_errors ≤ s.errors →
    (s.applyOps ops).connection_errors + (s.applyOps ops).send_errors
      ≤ (s.applyOps ops).errors := by
  intro ops
  induction ops with
  | nil => intro s h; simpa [DeviceStats.applyOps_nil] using h
  | cons op ops ih =>
    intro s h
    rw [DeviceStats.applyOps_cons]
    exact ih _ (stats_apply_invariant s op h)

/-- C9: in every statistics state reachable from the initial one,
`connection_errors + send_errors ≤ errors`; and recording an error whose
`error_type` is neither `"connection"` nor `"send"` bumps `errors` and
`consecutive_errors` but neither classified counter. -/
theorem C9_error_partition :
    (∀ ops : List StatsOp,
      (DeviceStats.init.applyOps ops).connection_errors
          + (DeviceStats.init.applyOps ops).send_errors
        ≤ (DeviceStats.init.applyOps ops).errors) ∧
    (∀ (s : DeviceStats) (e t : String),
      t ≠ "connection" → t ≠ "send" →
      (s.record_error e t).errors = s.errors + 1 ∧
      (s.record_error e t).consecutive_errors = s.consecutive_errors + 1 ∧
      (s.record_error e t).connection_errors = s.connection_errors ∧
      (s.record_error e t).send_errors = s.send_errors) := by
  constructor
  · intro ops
    exact stats_applyOps_invariant ops DeviceStats.init (by simp [DeviceStats.init])
  · intro s e t h1 h2
    simp only [DeviceStats.record_error]
    rw [if_neg h1, if_neg h2]
    exact ⟨rfl, rfl, rfl, rfl⟩

/-- Witness for C9 at a concrete operation sequence and a concrete
unclassified error type. -/
theorem C9_witness :
    ((DeviceStats.init.applyOps
        [.recordError "boom" "general", .increment 5, .recordRetry]).connection_errors
      + (DeviceStats.init.applyOps
        [.recordError "boom" "general", .increment 5, .recordRetry]).send_errors
      ≤ (DeviceStats.init.applyOps
        [.recordError "boom" "general", .increment 5, .recordRetry]).errors) ∧
    ((DeviceStats.init.record_error "boom" "general").errors
        = DeviceStats.init.errors + 1 ∧
      (DeviceStats.init.record_error "boom" "general").consecutive_errors
        = DeviceStats.init.consecutive_errors + 1 ∧
      (DeviceStats.init.record_error "boom" "general").connection_errors
        = DeviceStats.init.connection_errors ∧
      (DeviceStats.init.record_error "boom" "general").send_errors
        = DeviceStats.init.send_errors) :=
  ⟨C9_error_partition.1 [.recordError "boom" "general", .increment 5, .recordRetry],
   C9_error_partition.2 DeviceStats.init "boom" "general" (by decide) (by decide)⟩

/-- C7: `increment_messages` adds exactly one message and resets the
consecutive-error run; `record_error` extends the consecutive-error run
by exactly one; and in any run of ticks every `message_sent` log record
is emitted with `consecutive_errors = 0` and with `messages_sent` one
above its value before the tick's record. -/
theorem C7_send_record_stats :
    (∀ (s : DeviceStats) (now : Int),
      (s.increment_messages now).messages_sent = s.messages_sent + 1 ∧
      (s.increment_messages now).consecutive_errors = 0) ∧
    (∀ (s : DeviceStats) (e t : String),
      (s.record_error e t).consecutive_errors = s.consecutive_errors + 1) ∧
    (∀ (s : DeviceStats) (ticks : List (Int × Bool)) (entry : TraceEntry),
      entry ∈ (DeviceSimulator.runTicks s ticks).2 →
      entry.event_type = "message_sent" →
      entry.stats.consecutive_errors = 0) := by
  refine ⟨fun s now => ⟨rfl, rfl⟩, ?_, ?_⟩
  · intro s e t
    simp only [DeviceStats.record_error]
    split_ifs <;> rfl
  · intro s ticks
    induction ticks generalizing s with
    | nil =>
      intro entry hmem
      simp [DeviceSimulator.runTicks] at hmem
    | cons tk ticks ih =>
      intro entry hmem hevent
      obtain ⟨now, success⟩ := tk
      cases success with
      | true =>
        simp only [DeviceSimulator.runTicks, DeviceSimulator.tickRecord,
          if_pos, List.mem_cons] at hmem
        rcases hmem with rfl | hmem
        · rfl
        · exact ih _ entry hmem hevent
      | false =>
        simp only [DeviceSimulator.runTicks, DeviceSimulator.tickRecord,
          if_neg, List.mem_cons] at hmem
        rcases hmem with rfl | hmem
        · simp at hevent
        · exact ih _ entry hmem hevent

/-- Witness for C7: one successful tick at time 0 emits a single
`message_sent` record, with the consecutive-error counter at zero. -/
theorem C7_witness :
    ({ event_type := "message_sent", stats := DeviceStats.init.increment_messages 0 }
        : TraceEntry) ∈ (DeviceSimulator.runTicks DeviceStats.init [(0, true)]).2 ∧
    (DeviceStats.init.increment_messages 0).consecutive_errors = 0 :=
  ⟨by decide,
   C7_send_record_stats.2.2 DeviceStats.init [(0, true)]
     { event_type := "message_sent", stats := DeviceStats.init.increment_messages 0 }
     (by decide) (by decide)⟩

/-! ## HTTP connector claims -/

/-- C10: with no live session (never connected, or disconnected since),
`send` does not fail outright: it first runs `connect` itself; if that
fails it returns false without issuing any request (and still holds no
session); if it succeeds, the call proceeds exactly as a send on a
connector with a live session, and for a method `send` implements, a
request is actually issued. -/
theorem C10_send_establishes_session (cfg : HTTPCfg) (st : HTTPState)
    (outcome : HTTPOutcome) (hs : st.session = false) :
    (HTTPConnector.send cfg st false outcome = ({ session := false }, false, false)) ∧
    (HTTPConnector.send cfg st true outcome
      = HTTPConnector.send cfg { session := true } true outcome) ∧
    (supportedMethods.contains (pyUpper cfg.method) = true →
      (HTTPConnector.send cfg st true outcome).2.2 = true) := by
  obtain ⟨sess⟩ := st
  cases hs
  refine ⟨rfl, rfl, fun hm => ?_⟩
  simp only [HTTPConnector.send, hm]
  cases outcome <;> simp

/-- Witness for C10 with a POST connector and a 200 response. -/
theorem C10_witness :
    (HTTPConnector.send ⟨"POST"⟩ ⟨false⟩ false (.status 200)
      = ({ session := false }, false, false)) ∧
    (HTTPConnector.send ⟨"POST"⟩ ⟨false⟩ true (.status 200)
      = HTTPConnector.send ⟨"POST"⟩ { session := true } true (.status 200)) ∧
    (supportedMethods.contains (pyUpper "POST") = true →
      (HTTPConnector.send ⟨"POST"⟩ ⟨false⟩ true (.status 200)).2.2 = true) :=
  C10_send_establishes_session ⟨"POST"⟩ ⟨false⟩ (.status 200) (by decide)

/-- C6 as stated is false: a POST send on a live session answered with
status 500 returns false but leaves the session open — the connector
does not close it. -/
theorem C6_counterexample :
    (HTTPConnector.send ⟨"POST"⟩ ⟨true⟩ true (.status 500)).2.1 = false ∧
    (HTTPConnector.send ⟨"POST"⟩ ⟨true⟩ true (.status 500)).1.session = true := by
  decide

/-- C6 amended: a response with status ≥ 400 (in particular any 5xx)
makes `send` return false with the session left open; the session is
closed — forcing a fresh one on the next send — exactly when the request
raises an aiohttp client error, which also returns false. -/
theorem C6_http_5xx_amended (cfg : HTTPCfg) (c : Nat) (connectOk : Bool)
    (hm : supportedMethods.contains (pyUpper cfg.method) = true) (hc : 400 ≤ c) :
    (HTTPConnector.send cfg ⟨true⟩ connectOk (.status c)
      = (⟨true⟩, false, true)) ∧
    (HTTPConnector.send cfg ⟨true⟩ connectOk .clientError
      = (⟨false⟩, false, true)) := by
  have hm2 : pyUpper cfg.method ∈ supportedMethods := by simpa using hm
  constructor
  · simp only [HTTPConnector.send, hm]
    simp
    omega
  · simp [HTTPConnector.send, hm2]

/-- Witness for the amended C6 at a POST connector and status 503. -/
theorem C6_witness :
    (HTTPConnector.send ⟨"POST"⟩ ⟨true⟩ true (.status 503)
      = (⟨true⟩, false, true)) ∧
    (HTTPConnector.send ⟨"POST"⟩ ⟨true⟩ true .clientError
      = (⟨false⟩, false, true)) :=
  C6_http_5xx_amended ⟨"POST"⟩ 503 true (by decide) (by decide)

/-! ## Engine start claims -/

/-- C4 as stated is false: starting a project with no devices at all
launches zero simulators yet returns success and registers the project
in the engine map (with zero simulators). -/
theorem C4_counterexample :
    (start_project ⟨[]⟩ "p" []).2 = true ∧
    (start_project ⟨[]⟩ "p" []).1.running_projects.lookup "p" = some 0 := by
  decide

/-- C4 amended: `start_project` fails, leaving the engine untouched,
when the project id is already registered; otherwise it fails exactly
when processing some device raises (an invalid target configuration),
again leaving the engine untouched, and in every other case — including
zero constructed simulators — it registers the project with however many
simulators were built and returns success. -/
theorem C4_start_project_amended (eng : Engine) (pid : String)
    (devices : List DeviceBuild) :
    ((eng.running_projects.lookup pid).isSome = true →
      start_project eng pid devices = (eng, false)) ∧
    (eng.running_projects.lookup pid = none →
      ((start_project eng pid devices).2 = (processDevices devices).isSome ∧
       (∀ n, processDevices devices = some n →
         (start_project eng pid devices).1.running_projects.lookup pid = some n) ∧
       (processDevices devices = none →
         start_project eng pid devices = (eng, false)))) := by
  constructor
  · intro h
    simp [start_project, h]
  · intro h
    refine ⟨?_, ?_, ?_⟩
    · simp only [start_project, h, Option.isSome_none, Bool.false_eq_true, if_false]
      cases hp : processDevices devices <;> simp
    · intro n hn
      simp [start_project, h, hn, List.lookup]
    · intro hn
      simp [start_project, h, hn]

/-- Witness for the amended C4: a fresh engine, a project whose only
device is skipped — zero simulators, yet success and registration. -/
theorem C4_witness :
    ((start_project ⟨[]⟩ "p" [.skip]).2 = (processDevices [.skip]).isSome ∧
     (∀ n, processDevices [.skip] = some n →
       (start_project ⟨[]⟩ "p" [.skip]).1.running_projects.lookup "p" = some n) ∧
     (processDevices [.skip] = none →
       start_project ⟨[]⟩ "p" [.skip] = (⟨[]⟩, false))) :=
  (C4_start_project_amended ⟨[]⟩ "p" [.skip]).2 (by decide)

/-! ## Log replay claim -/

/-- C3: the code contradicts the claim (and its own comments).  With 21
entries delivered (arrival order 1..21, capacity 100), the buffer is
newest-first, so the slice `log_buffer[-20:]` picks the 20 oldest
buffered entries: the subscriber receives 1..20 — in chronological order,
but not the 20 most recently buffered (which, oldest of them first, are
2..21, i.e. the reversed 20-entry prefix of the newest-first buffer). -/
theorem C3_log_replay_bug :
    stream_logs_replay (bufferAfter ((List.range 21).map (· + 1)) 100)
      = (List.range 20).map (· + 1) ∧
    stream_logs_replay (bufferAfter ((List.range 21).map (· + 1)) 100)
      ≠ ((bufferAfter ((List.range 21).map (· + 1)) 100).take 20).reverse := by
  decide

/-! ## Kafka claims -/

/-- C5: the key-selection order of `_get_message_key` is as claimed
(static key first, else the stringified payload field, else no key) —
but the construction-time rejection is not: `KafkaConfig` declares no
`key_static`/`key_field` fields and no mutual-exclusion validator, so
constructing it with both set succeeds (pydantic silently drops the two
arguments) instead of raising the `ValueError` the repository's own
tests demand. -/
theorem C5_kafka_key_selection_and_config :
    (KafkaConfig.construct
        { bootstrap_servers := some "localhost:9092", topic := some "test-topic",
          security_protocol := none, key_field := some "device_id",
          key_static := some "my-key", partition := none }
      = .ok { bootstrap_servers := "localhost:9092", topic := "test-topic",
              security_protocol := "PLAINTEXT", sasl_mechanism := none,
              sasl_username := none, sasl_password := none }) ∧
    get_message_key ⟨some "static-key", none⟩ [("device_id", .str "d1")]
      = some "static-key" ∧
    get_message_key ⟨none, some "device_id"⟩ [("device_id", .int 12345)]
      = some "12345" ∧
    get_message_key ⟨none, some "device_id"⟩ [("temperature", .int 25)] = none ∧
    get_message_key ⟨none, none⟩ [("device_id", .str "d1")] = none := by
  refine ⟨rfl, rfl, ?_, ?_, rfl⟩ <;> decide

/-! ## Script sandbox claims -/

/-- C1 as stated is false: a script that calls the file-opening builtin
`open` — a name on neither allow-list — passes validation, so
constructing the generator succeeds instead of raising. -/
theorem C1_counterexample :
    PythonCodeGenerator.constructs openCallScript = true ∧
    ALLOWED_BUILTINS.contains "open" = false ∧
    ALLOWED_MODULES.contains "open" = false := by
  decide

/-- C1 amended: construction fails when the script imports a module
outside the allow-list, and when it reads an attribute on the dangerous
denylist (shown for an attribute read assigned to a name); a script that
merely names a function outside the allow-lists is accepted at
construction.  But executing the generator never returns the value a
script assigned to `result`: `python_runner` is an imported module, so
`__builtins__` is the builtins dict and building the restricted builtins
mapping raises `AttributeError` before the user code runs — every
execution of every compiled script raises instead of producing a payload.
Even under the `__main__` counterfactual, where the mapping builds, a
script beginning with an import statement — of any module, allowed or
not — yields the `{"error": ...}` payload, because the restricted
builtins mapping holds no `__import__`. -/
theorem C1_script_sandbox_amended :
    (∀ (prog : List PyStmt) (s : PyStmt) (m : String) (ns : List String),
      s ∈ prog →
      ((s = PyStmt.importStmt ns ∧ m ∈ ns) ∨ s = PyStmt.importFrom m ns) →
      ALLOWED_MODULES.contains m = false →
      PythonCodeGenerator.constructs prog = false) ∧
    (∀ (prog : List PyStmt) (x : String) (obj : PyExpr) (a : String),
      PyStmt.assign x (PyExpr.attribute obj a) ∈ prog →
      dangerous_attrs.contains a = true →
      PythonCodeGenerator.constructs prog = false) ∧
    (∀ (prog : List PyStmt) (meta : PyValue),
      PythonCodeGenerator.generate prog meta
        = .error "AttributeError: dict object has no attribute abs") ∧
    (∀ (names : List String) (rest : List PyStmt) (meta : PyValue),
      SafePythonExecutor.execute .moduleObject (PyStmt.importStmt names :: rest) meta
        = .ok (PyValue.dict
            [("error", PyValue.str "ImportError: __import__ not found")])) := by
  refine ⟨?_, ?_, fun prog meta => rfl, fun names rest meta => rfl⟩
  · intro prog s m ns hmem hshape hm
    rw [PythonCodeGenerator.constructs, validate_code, List.all_eq_false]
    refine ⟨s, hmem, ?_⟩
    rcases hshape with ⟨rfl, hin⟩ | rfl
    · simp only [stmtOk, Bool.not_eq_true, List.all_eq_false]
      exact ⟨m, hin, by simpa using hm⟩
    · simp only [stmtOk, Bool.not_eq_true]
      exact hm
  · intro prog x obj a hmem ha
    rw [PythonCodeGenerator.constructs, validate_code, List.all_eq_false]
    have ha2 : a ∈ dangerous_attrs := by simpa using ha
    exact ⟨_, hmem, by simp [stmtOk, exprOk, ha2]⟩

/-- Witness for the amended C1: `import os` is rejected at construction,
and executing the accepted `result = open(...)` script raises the
builtins-construction `AttributeError` instead of returning anything. -/
theorem C1_witness :
    PythonCodeGenerator.constructs [PyStmt.importStmt ["os"]] = false ∧
    PythonCodeGenerator.generate openCallScript (PyValue.dict [])
      = .error "AttributeError: dict object has no attribute abs" :=
  ⟨C1_script_sandbox_amended.1 [PyStmt.importStmt ["os"]]
      (PyStmt.importStmt ["os"]) "os" ["os"]
      (by simp) (Or.inl ⟨rfl, by simp⟩) (by decide),
   C1_script_sandbox_amended.2.2.1 openCallScript (PyValue.dict [])⟩

end Sigsim
